import Mathlib

/-!
# The bucket-flush example (`c/flush.cc`)

The program is a sequential driver over the libcouchbase client library.  The
library is external: it is modelled as a parameter (`Library`) that fixes the
header constants the program compares against and, for every history of calls
it has received, the value it returns and the responses it delivers to the
installed callbacks.  The program itself (`flush_callback`, `main`) is a state
transformer over a `World` holding the event trace of the run and the
library's callback table.
-/

namespace Flush

/-! ## Data model -/

/-- Status codes of the client library (the C enumeration `lcb_error_t`). -/
abbrev lcb_error_t := Int

/-- Instance handle (the C pointer type `lcb_t`), an address chosen by the library. -/
abbrev lcb_t := Nat

/-- The two output streams the program writes to. -/
inductive Stream
  | stdout
  | stderr
  deriving DecidableEq

/-- Functions of the program whose address is handed to the library. -/
inductive Callback
  | flush_callback
  deriving DecidableEq

/-- Library entry points used by the program, with the arguments that matter. -/
inductive LibFn
  | lcb_create
  | lcb_connect
  | lcb_wait
  | lcb_get_bootstrap_status
  | lcb_install_callback3 (cbtype : Int) (cb : Callback)
  | lcb_cbflush3
  | lcb_destroy
  | lcb_strerror (rc : lcb_error_t)
  deriving DecidableEq

/-- One library call: the entry point and the instance handle passed to it
(`none` when the call takes no handle or is passed `NULL`). -/
structure Call where
  fn : LibFn
  inst : Option lcb_t
  deriving DecidableEq

/-- The response handed to a flush callback; only its status field is read. -/
structure lcb_RESPCBFLUSH where
  rc : lcb_error_t
  deriving DecidableEq

/-- Observable events of a run, in program order. -/
inductive Event
  /-- A library call made directly by `main`. -/
  | call (c : Call)
  /-- The library enters an installed callback. -/
  | enter (cb : Callback) (inst : lcb_t) (cbtype : Int) (rc : lcb_error_t)
  /-- A library call made from inside a callback. -/
  | nested (cb : Callback) (c : Call)
  /-- One formatted print to a stream. -/
  | write (s : Stream) (text : String)
  /-- A direct call to `fn` hands status `v` back to `main`. -/
  | result (fn : LibFn) (v : lcb_error_t)
  deriving DecidableEq

/-- The external client library: the constants of its header that the program
names, its status-to-text table, and its behaviour as a function of the calls
it has received so far (the call being answered is the last element). -/
structure Library where
  /-- The status constant `LCB_SUCCESS`. -/
  LCB_SUCCESS : lcb_error_t
  /-- The callback kind `LCB_CALLBACK_CBFLUSH`. -/
  LCB_CALLBACK_CBFLUSH : Int
  /-- The text `lcb_strerror(NULL, rc)` returns. -/
  lcb_strerror : lcb_error_t → String
  /-- The handle `lcb_create` stores through its first argument. -/
  newInstance : List Call → lcb_t
  /-- The status a call returns. -/
  ret : List Call → lcb_error_t
  /-- The responses (callback kind, response) the library delivers while it
  serves a call. -/
  dispatch : List Call → List (Int × lcb_RESPCBFLUSH)

/-- State of a run: the events so far and the library's callback table. -/
structure World where
  trace : List Event
  callbacks : List (Int × Callback)

/-- The state before `main` starts. -/
def World.init : World := ⟨[], []⟩

/-- Programs are state transformers over the world. -/
abbrev Prog := StateM World

/-! ## Views of a trace -/

/-- The library calls of a trace as the library sees them: direct and nested. -/
def callsOf (t : List Event) : List Call :=
  t.filterMap fun e =>
    match e with
    | Event.call c => some c
    | Event.nested _ c => some c
    | _ => none

/-- The library calls made directly by `main`. -/
def directCalls (t : List Event) : List Call :=
  t.filterMap fun e =>
    match e with
    | Event.call c => some c
    | _ => none

/-- The statuses handed back to `main` by its calls to `fn`, in order. -/
def returned (fn : LibFn) (t : List Event) : List lcb_error_t :=
  t.filterMap fun e =>
    match e with
    | Event.result g v => if g = fn then some v else none
    | _ => none

/-- The statuses with which callbacks were invoked, in order. -/
def invocations (t : List Event) : List lcb_error_t :=
  t.filterMap fun e =>
    match e with
    | Event.enter _ _ _ rc => some rc
    | _ => none

/-- The prints of a trace, in order, each with its stream. -/
def output (t : List Event) : List (Stream × String) :=
  t.filterMap fun e =>
    match e with
    | Event.write s text => some (s, text)
    | _ => none

/-- The text that reached one stream. -/
def textOn (s : Stream) (t : List Event) : String :=
  String.join (((output t).filter (fun p => p.1 = s)).map Prod.snd)

/-! ## Primitive operations -/

/-- Append one event to the trace. -/
def emit (e : Event) : Prog Unit :=
  modify fun w => { w with trace := w.trace ++ [e] }

/-- One formatted print to stream `s`; `text` is the formatted result. -/
def fprintf (s : Stream) (text : String) : Prog Unit :=
  emit (Event.write s text)

/-- One formatted print to standard output. -/
def printf (text : String) : Prog Unit :=
  fprintf Stream.stdout text

/-- The call `lcb_strerror(NULL, rc)` made from callback `cb`. -/
def lcb_strerror (L : Library) (cb : Callback) (rc : lcb_error_t) : Prog String := do
  emit (Event.nested cb ⟨LibFn.lcb_strerror rc, none⟩)
  return L.lcb_strerror rc

/-! ## The program: `flush_callback` -/

/-- The completion handler of `flush.cc`; its first two parameters are unnamed
and unused. -/
def flush_callback (L : Library) (_ : lcb_t) (_ : Int) (resp : lcb_RESPCBFLUSH) :
    Prog Unit := do
  if resp.rc ≠ L.LCB_SUCCESS then
    let msg ← lcb_strerror L Callback.flush_callback resp.rc
    fprintf Stream.stderr ("Couldn't flush bucket: " ++ msg ++ "\n")
  else
    printf "Flush successful\n"

/-! ## The library side of a call -/

/-- Run an installed callback. -/
def runCallback (L : Library) : Callback → lcb_t → Int → lcb_RESPCBFLUSH → Prog Unit
  | Callback.flush_callback => flush_callback L

/-- The library delivers one response: it looks the callback kind up in its
table and, when a callback is installed for it, invokes that callback. -/
def invoke (L : Library) (inst : lcb_t) (r : Int × lcb_RESPCBFLUSH) : Prog Unit := do
  match (← get).callbacks.lookup r.1 with
  | some cb =>
    emit (Event.enter cb inst r.1 r.2.rc)
    runCallback L cb inst r.1 r.2
  | none => pure ()

/-- The library delivers a list of responses in order. -/
def deliver (L : Library) (inst : lcb_t) : List (Int × lcb_RESPCBFLUSH) → Prog Unit
  | [] => pure ()
  | r :: rs => do
    invoke L inst r
    deliver L inst rs

/-- The library serves a call on instance `inst`: the call is recorded and the
library delivers the responses it chooses for this history.  The history is
handed on so that the caller can take the returned value. -/
def serve (L : Library) (fn : LibFn) (inst : lcb_t) : Prog (List Call) := do
  emit (Event.call ⟨fn, some inst⟩)
  let h := callsOf (← get).trace
  deliver L inst (L.dispatch h)
  return h

/-- The library hands back its status for history `h`; the value is recorded
in the trace so that statements can refer to what a call returned. -/
def handBack (L : Library) (fn : LibFn) (h : List Call) : Prog lcb_error_t := do
  emit (Event.result fn (L.ret h))
  return L.ret h

/-- A status-returning call into the library on instance `inst`. -/
def libcall (L : Library) (fn : LibFn) (inst : lcb_t) : Prog lcb_error_t := do
  let h ← serve L fn inst
  handBack L fn h

/-- The call `lcb_create(&instance, NULL)`: returns the status and the value
the variable `instance` holds after the call (the handle the library stored
through the first argument). -/
def lcb_create (L : Library) : Prog (lcb_error_t × lcb_t) := do
  emit (Event.call ⟨LibFn.lcb_create, none⟩)
  let h := callsOf (← get).trace
  let rc ← handBack L LibFn.lcb_create h
  return (rc, L.newInstance h)

/-- The call `lcb_connect(instance)`. -/
def lcb_connect (L : Library) (inst : lcb_t) : Prog lcb_error_t :=
  libcall L LibFn.lcb_connect inst

/-- The call `lcb_wait(instance)`. -/
def lcb_wait (L : Library) (inst : lcb_t) : Prog lcb_error_t :=
  libcall L LibFn.lcb_wait inst

/-- The call `lcb_get_bootstrap_status(instance)`. -/
def lcb_get_bootstrap_status (L : Library) (inst : lcb_t) : Prog lcb_error_t :=
  libcall L LibFn.lcb_get_bootstrap_status inst

/-- The call `lcb_install_callback3(instance, cbtype, cb)`: the table entry for
`cbtype` is replaced and the previous callback is returned. -/
def lcb_install_callback3 (L : Library) (inst : lcb_t) (cbtype : Int) (cb : Callback) :
    Prog (Option Callback) := do
  let old := (← get).callbacks.lookup cbtype
  modify fun w => { w with callbacks := (cbtype, cb) :: w.callbacks }
  let _ ← serve L (LibFn.lcb_install_callback3 cbtype cb) inst
  return old

/-- The call `lcb_cbflush3(instance, NULL, &cmd)` with the zeroed command. -/
def lcb_cbflush3 (L : Library) (inst : lcb_t) : Prog lcb_error_t :=
  libcall L LibFn.lcb_cbflush3 inst

/-- The call `lcb_destroy(instance)`; it returns nothing. -/
def lcb_destroy (L : Library) (inst : lcb_t) : Prog Unit := do
  let _ ← serve L LibFn.lcb_destroy inst
  return ()

/-! ## The program: `main` -/

/-- The function `main` of `flush.cc`; both parameters are unnamed and unused,
and every library return value except the bootstrap status is discarded. -/
def main (L : Library) (_ : Int) (_ : List String) : Prog Int := do
  let (_, inst) ← lcb_create L
  let _ ← lcb_connect L inst
  let _ ← lcb_wait L inst
  if (← lcb_get_bootstrap_status L inst) ≠ L.LCB_SUCCESS then
    printf "Couldn't bootstrap!\n"
  let _ ← lcb_install_callback3 L inst L.LCB_CALLBACK_CBFLUSH Callback.flush_callback
  let _ ← lcb_cbflush3 L inst
  let _ ← lcb_wait L inst
  lcb_destroy L inst
  return 0

/-- A whole run of the program from the initial state: exit code and final world. -/
def run (L : Library) (argc : Int) (argv : List String) : Int × World :=
  (main L argc argv).run World.init

/-- The exit code of a run. -/
def exitCode (L : Library) (argc : Int) (argv : List String) : Int :=
  (run L argc argv).1

/-- The event trace of a run. -/
def traceOf (L : Library) (argc : Int) (argv : List String) : List Event :=
  (run L argc argv).2.trace

/-! ## Sample libraries -/

/-- A library in which everything succeeds: every call returns 0 and the flush
response arrives, with status 0, during the wait that follows the submission. -/
def okLib : Library where
  LCB_SUCCESS := 0
  LCB_CALLBACK_CBFLUSH := 19
  lcb_strerror := fun rc => if rc = 0 then "Success (Not an error)" else "Generic error"
  newInstance := fun _ => 4096
  ret := fun _ => 0
  dispatch := fun h =>
    if h.length = 7 then [(19, ⟨0⟩)] else []

/-- A library in which the store is reachable but refuses the flush: the flush
response arrives during the second wait with status 22. -/
def failLib : Library where
  LCB_SUCCESS := 0
  LCB_CALLBACK_CBFLUSH := 19
  lcb_strerror := fun rc => if rc = 0 then "Success (Not an error)" else "Generic error"
  newInstance := fun _ => 4096
  ret := fun _ => 0
  dispatch := fun h =>
    if h.length = 7 then [(19, ⟨22⟩)] else []

/-- A library in which the store is unreachable: the bootstrap status is 24,
the flush cannot be scheduled (`lcb_cbflush3` returns 11) and no response is
ever delivered. -/
def downLib : Library where
  LCB_SUCCESS := 0
  LCB_CALLBACK_CBFLUSH := 19
  lcb_strerror := fun rc => if rc = 0 then "Success (Not an error)" else "Generic error"
  newInstance := fun _ => 4096
  ret := fun h => if h.length = 4 then 24 else if h.length = 6 then 11 else 0
  dispatch := fun _ => []

/-- A library in which the store is unreachable and the flush fails with a
response: the bootstrap status is 24 and the flush callback is invoked with
status 24 during the second wait. -/
def downFailLib : Library where
  LCB_SUCCESS := 0
  LCB_CALLBACK_CBFLUSH := 19
  lcb_strerror := fun rc => if rc = 0 then "Success (Not an error)" else "Generic error"
  newInstance := fun _ => 4096
  ret := fun h => if h.length = 4 then 24 else 0
  dispatch := fun h =>
    if h.length = 7 then [(19, ⟨24⟩)] else []

/-! ## Event lists of the operations, in closed form -/

/-- The events of one invocation of the flush callback. -/
def callbackEvents (L : Library) (inst : lcb_t) (cbtype : Int) (rc : lcb_error_t) :
    List Event :=
  if rc ≠ L.LCB_SUCCESS then
    [Event.enter Callback.flush_callback inst cbtype rc,
     Event.nested Callback.flush_callback ⟨LibFn.lcb_strerror rc, none⟩,
     Event.write Stream.stderr ("Couldn't flush bucket: " ++ L.lcb_strerror rc ++ "\n")]
  else
    [Event.enter Callback.flush_callback inst cbtype rc,
     Event.write Stream.stdout "Flush successful\n"]

/-- The events produced when the library delivers a list of responses against
callback table `tbl`. -/
def deliverEvents (L : Library) (tbl : List (Int × Callback)) (inst : lcb_t) :
    List (Int × lcb_RESPCBFLUSH) → List Event
  | [] => []
  | r :: rs =>
    (match tbl.lookup r.1 with
      | some _ => callbackEvents L inst r.1 r.2.rc
      | none => []) ++ deliverEvents L tbl inst rs

/-- The trace after a call on `inst` has been served, from trace `t` and table `tbl`. -/
def served (L : Library) (tbl : List (Int × Callback)) (inst : lcb_t) (fn : LibFn)
    (t : List Event) : List Event :=
  t ++ [Event.call ⟨fn, some inst⟩] ++
    deliverEvents L tbl inst (L.dispatch (callsOf (t ++ [Event.call ⟨fn, some inst⟩])))

/-- The trace after a status-returning call on `inst` has come back. -/
def answered (L : Library) (tbl : List (Int × Callback)) (inst : lcb_t) (fn : LibFn)
    (t : List Event) : List Event :=
  served L tbl inst fn t ++
    [Event.result fn (L.ret (callsOf (t ++ [Event.call ⟨fn, some inst⟩])))]

/-- The handle `main` holds in `instance` after `lcb_create`. -/
def theInstance (L : Library) : lcb_t :=
  L.newInstance [⟨LibFn.lcb_create, none⟩]

/-- The callback table after `main` has installed its handler. -/
def flushTable (L : Library) : List (Int × Callback) :=
  [(L.LCB_CALLBACK_CBFLUSH, Callback.flush_callback)]

/-- The print of the bootstrap-failure line. -/
def bootLine : Event :=
  Event.write Stream.stdout "Couldn't bootstrap!\n"

/-- The trace of `main` up to the return of `lcb_wait` after `lcb_connect`. -/
def connectTrace (L : Library) : List Event :=
  answered L [] (theInstance L) LibFn.lcb_wait
    (answered L [] (theInstance L) LibFn.lcb_connect
      [Event.call ⟨LibFn.lcb_create, none⟩,
       Event.result LibFn.lcb_create (L.ret [⟨LibFn.lcb_create, none⟩])])

/-- The status `lcb_get_bootstrap_status` hands back to `main`. -/
def bootstrapStatus (L : Library) : lcb_error_t :=
  L.ret (callsOf (connectTrace L ++
    [Event.call ⟨LibFn.lcb_get_bootstrap_status, some (theInstance L)⟩]))

/-- The trace of `main` up to and including the bootstrap check. -/
def bootTrace (L : Library) : List Event :=
  answered L [] (theInstance L) LibFn.lcb_get_bootstrap_status (connectTrace L) ++
    (if bootstrapStatus L ≠ L.LCB_SUCCESS then [bootLine] else [])

/-- The whole trace of `main`. -/
def mainTrace (L : Library) : List Event :=
  served L (flushTable L) (theInstance L) LibFn.lcb_destroy
    (answered L (flushTable L) (theInstance L) LibFn.lcb_wait
      (answered L (flushTable L) (theInstance L) LibFn.lcb_cbflush3
        (served L (flushTable L) (theInstance L)
          (LibFn.lcb_install_callback3 L.LCB_CALLBACK_CBFLUSH Callback.flush_callback)
          (bootTrace L))))

/-- The print made by the flush callback for status `rc`. -/
def outcomeLine (L : Library) (rc : lcb_error_t) : Stream × String :=
  if rc ≠ L.LCB_SUCCESS then
    (Stream.stderr, "Couldn't flush bucket: " ++ L.lcb_strerror rc ++ "\n")
  else
    (Stream.stdout, "Flush successful\n")

/-- The eight library calls `main` makes, in program order. -/
def mainCalls (L : Library) : List Call :=
  [⟨LibFn.lcb_create, none⟩,
   ⟨LibFn.lcb_connect, some (theInstance L)⟩,
   ⟨LibFn.lcb_wait, some (theInstance L)⟩,
   ⟨LibFn.lcb_get_bootstrap_status, some (theInstance L)⟩,
   ⟨LibFn.lcb_install_callback3 L.LCB_CALLBACK_CBFLUSH Callback.flush_callback,
     some (theInstance L)⟩,
   ⟨LibFn.lcb_cbflush3, some (theInstance L)⟩,
   ⟨LibFn.lcb_wait, some (theInstance L)⟩,
   ⟨LibFn.lcb_destroy, some (theInstance L)⟩]

/-- The prints `main` itself makes: the bootstrap-failure line or nothing. -/
def bootOutput (L : Library) : List (Stream × String) :=
  if bootstrapStatus L ≠ L.LCB_SUCCESS then [(Stream.stdout, "Couldn't bootstrap!\n")] else []

/-- The trace of `main` up to the return of the second `lcb_wait`. -/
def flushedTrace (L : Library) : List Event :=
  answered L (flushTable L) (theInstance L) LibFn.lcb_wait
    (answered L (flushTable L) (theInstance L) LibFn.lcb_cbflush3
      (served L (flushTable L) (theInstance L)
        (LibFn.lcb_install_callback3 L.LCB_CALLBACK_CBFLUSH Callback.flush_callback)
        (bootTrace L)))

/-- The texts printed on one stream, in the order they were printed there.  No
order between prints on different streams is kept. -/
def printsOn (s : Stream) (t : List Event) : List String :=
  ((output t).filter (fun p => p.1 = s)).map Prod.snd

/-- The library with its returned statuses replaced by `ret2`; everything else
(constants, texts, handle, delivered responses) is kept. -/
def withReturns (L : Library) (ret2 : List Call → lcb_error_t) : Library :=
  { L with ret := ret2 }

/-- A trace without the records of returned statuses and without the
bootstrap-failure print. -/
def unaffected (t : List Event) : List Event :=
  t.filter fun e =>
    match e with
    | Event.result _ _ => false
    | _ => decide (e ≠ Event.write Stream.stdout "Couldn't bootstrap!\n")

/-! ## Closed forms of the operations -/

theorem flush_callback_eq (L : Library) (inst : lcb_t) (cbtype : Int)
    (resp : lcb_RESPCBFLUSH) (w : World) :
    flush_callback L inst cbtype resp w =
      ((), { w with trace := w.trace ++ (callbackEvents L inst cbtype resp.rc).tail }) := by
  unfold flush_callback callbackEvents
  by_cases h : resp.rc = L.LCB_SUCCESS
  · simp [h, printf, fprintf, emit, modify, modifyGet, MonadStateOf.modifyGet,
      StateT.modifyGet, pure]
  · simp [h, lcb_strerror, printf, fprintf, emit, modify, modifyGet, MonadStateOf.modifyGet,
      StateT.modifyGet, pure, bind, StateT.bind, StateT.pure]

theorem invoke_eq (L : Library) (inst : lcb_t) (r : Int × lcb_RESPCBFLUSH) (w : World) :
    invoke L inst r w =
      ((), { w with trace := w.trace ++ deliverEvents L w.callbacks inst [r] }) := by
  unfold invoke
  simp only [deliverEvents, bind, StateT.bind, get, getThe, MonadStateOf.get, StateT.get, pure]
  cases h : List.lookup r.1 w.callbacks with
  | none => simp [StateT.pure, pure]
  | some cb =>
    cases cb
    by_cases hrc : r.2.rc = L.LCB_SUCCESS <;>
      simp [runCallback, flush_callback_eq, emit, modify, modifyGet, MonadStateOf.modifyGet,
        StateT.modifyGet, StateT.bind, pure, callbackEvents, hrc]

theorem deliver_eq (L : Library) (inst : lcb_t) (rs : List (Int × lcb_RESPCBFLUSH))
    (w : World) :
    deliver L inst rs w =
      ((), { w with trace := w.trace ++ deliverEvents L w.callbacks inst rs }) := by
  induction rs generalizing w with
  | nil => simp [deliver, deliverEvents, pure, StateT.pure]
  | cons r rs ih =>
    simp only [deliver, bind, StateT.bind, invoke_eq, ih]
    simp [deliverEvents]

theorem serve_eq (L : Library) (fn : LibFn) (inst : lcb_t) (w : World) :
    serve L fn inst w =
      (callsOf (w.trace ++ [Event.call ⟨fn, some inst⟩]),
       { w with trace := served L w.callbacks inst fn w.trace }) := by
  simp [serve, served, bind, StateT.bind, emit, modify, modifyGet, MonadStateOf.modifyGet,
    StateT.modifyGet, get, getThe, MonadStateOf.get, StateT.get, deliver_eq, pure, StateT.pure]

theorem libcall_eq (L : Library) (fn : LibFn) (inst : lcb_t) (w : World) :
    libcall L fn inst w =
      (L.ret (callsOf (w.trace ++ [Event.call ⟨fn, some inst⟩])),
       { w with trace := answered L w.callbacks inst fn w.trace }) := by
  simp [libcall, answered, handBack, serve_eq, bind, StateT.bind, emit, modify, modifyGet,
    MonadStateOf.modifyGet, StateT.modifyGet, pure, StateT.pure]

theorem callsOf_single_call (c : Call) : callsOf [Event.call c] = [c] := rfl

theorem run_eq (L : Library) (argc : Int) (argv : List String) :
    run L argc argv = (0, ⟨mainTrace L, flushTable L⟩) := by
  have hb2 : bootstrapStatus L = bootstrapStatus L := rfl
  conv at hb2 => lhs; unfold bootstrapStatus connectTrace theInstance
  unfold run main
  by_cases hb : bootstrapStatus L = L.LCB_SUCCESS <;>
    simp [StateT.run, bind, StateT.bind, lcb_create, lcb_connect, lcb_wait,
      lcb_get_bootstrap_status, lcb_install_callback3, lcb_cbflush3, lcb_destroy,
      libcall_eq, serve_eq, handBack, emit, printf, fprintf, modify, modifyGet,
      MonadStateOf.modifyGet, StateT.modifyGet, get, getThe, MonadStateOf.get, StateT.get,
      pure, StateT.pure, World.init, mainTrace, bootTrace, connectTrace, flushTable,
      theInstance, hb, callsOf_single_call, hb2, bootLine]

/-! ## Views of the closed forms -/

theorem deliverEvents_nil_table (L : Library) (inst : lcb_t)
    (rs : List (Int × lcb_RESPCBFLUSH)) : deliverEvents L [] inst rs = [] := by
  induction rs with
  | nil => rfl
  | cons r rs ih => simp [deliverEvents, ih]

theorem directCalls_append (a b : List Event) :
    directCalls (a ++ b) = directCalls a ++ directCalls b := by
  simp [directCalls]

theorem callsOf_append (a b : List Event) : callsOf (a ++ b) = callsOf a ++ callsOf b := by
  simp [callsOf]

theorem returned_append (fn : LibFn) (a b : List Event) :
    returned fn (a ++ b) = returned fn a ++ returned fn b := by
  simp [returned]

theorem invocations_append (a b : List Event) :
    invocations (a ++ b) = invocations a ++ invocations b := by
  simp [invocations]

theorem output_append (a b : List Event) : output (a ++ b) = output a ++ output b := by
  simp [output]

theorem directCalls_callbackEvents (L : Library) (inst : lcb_t) (k : Int) (rc : lcb_error_t) :
    directCalls (callbackEvents L inst k rc) = [] := by
  unfold callbackEvents; split <;> simp [directCalls]

theorem returned_callbackEvents (fn : LibFn) (L : Library) (inst : lcb_t) (k : Int)
    (rc : lcb_error_t) : returned fn (callbackEvents L inst k rc) = [] := by
  unfold callbackEvents; split <;> simp [returned]

theorem invocations_callbackEvents (L : Library) (inst : lcb_t) (k : Int) (rc : lcb_error_t) :
    invocations (callbackEvents L inst k rc) = [rc] := by
  unfold callbackEvents; split <;> simp [invocations]

theorem output_callbackEvents (L : Library) (inst : lcb_t) (k : Int) (rc : lcb_error_t) :
    output (callbackEvents L inst k rc) = [outcomeLine L rc] := by
  unfold callbackEvents outcomeLine; split <;> simp [output]

theorem callsOf_callbackEvents_inst (L : Library) (inst : lcb_t) (k : Int) (rc : lcb_error_t) :
    ∀ c ∈ callsOf (callbackEvents L inst k rc), c.inst = none ∧ c.fn = LibFn.lcb_strerror rc := by
  unfold callbackEvents; split <;> simp [callsOf]

theorem directCalls_deliverEvents (L : Library) (tbl : List (Int × Callback)) (inst : lcb_t)
    (rs : List (Int × lcb_RESPCBFLUSH)) : directCalls (deliverEvents L tbl inst rs) = [] := by
  induction rs with
  | nil => rfl
  | cons r rs ih =>
    simp only [deliverEvents, directCalls_append, ih]
    split
    · simp [directCalls_callbackEvents]
    · rfl

theorem returned_deliverEvents (fn : LibFn) (L : Library) (tbl : List (Int × Callback))
    (inst : lcb_t) (rs : List (Int × lcb_RESPCBFLUSH)) :
    returned fn (deliverEvents L tbl inst rs) = [] := by
  induction rs with
  | nil => rfl
  | cons r rs ih =>
    simp only [deliverEvents, returned_append, ih]
    split
    · simp [returned_callbackEvents]
    · rfl

theorem output_deliverEvents (L : Library) (tbl : List (Int × Callback)) (inst : lcb_t)
    (rs : List (Int × lcb_RESPCBFLUSH)) :
    output (deliverEvents L tbl inst rs) =
      (invocations (deliverEvents L tbl inst rs)).map (outcomeLine L) := by
  induction rs with
  | nil => rfl
  | cons r rs ih =>
    simp only [deliverEvents, output_append, invocations_append, ih, List.map_append]
    split
    · simp [output_callbackEvents, invocations_callbackEvents]
    · rfl

theorem callsOf_deliverEvents_inst (L : Library) (tbl : List (Int × Callback)) (inst : lcb_t)
    (rs : List (Int × lcb_RESPCBFLUSH)) :
    ∀ c ∈ callsOf (deliverEvents L tbl inst rs), c.inst = none ∧ ∃ rc, c.fn = LibFn.lcb_strerror rc := by
  induction rs with
  | nil => intro c hc; simp [deliverEvents, callsOf] at hc
  | cons r rs ih =>
    intro c hc
    simp only [deliverEvents, callsOf_append, List.mem_append] at hc
    rcases hc with hc | hc
    · split at hc
      · exact ⟨(callsOf_callbackEvents_inst L inst _ _ c hc).1, _,
          (callsOf_callbackEvents_inst L inst _ _ c hc).2⟩
      · simp [callsOf] at hc
    · exact ih c hc

theorem directCalls_served (L : Library) (tbl : List (Int × Callback)) (inst : lcb_t)
    (fn : LibFn) (t : List Event) :
    directCalls (served L tbl inst fn t) = directCalls t ++ [⟨fn, some inst⟩] := by
  simp only [served, directCalls_append, directCalls_deliverEvents, List.append_nil]
  rfl

theorem directCalls_answered (L : Library) (tbl : List (Int × Callback)) (inst : lcb_t)
    (fn : LibFn) (t : List Event) :
    directCalls (answered L tbl inst fn t) = directCalls t ++ [⟨fn, some inst⟩] := by
  simp only [answered, directCalls_append, directCalls_served]
  simp [directCalls]

theorem returned_served (g : LibFn) (L : Library) (tbl : List (Int × Callback)) (inst : lcb_t)
    (fn : LibFn) (t : List Event) :
    returned g (served L tbl inst fn t) = returned g t := by
  simp only [served, returned_append, returned_deliverEvents, List.append_nil]
  simp [returned]

theorem returned_answered (g : LibFn) (L : Library) (tbl : List (Int × Callback)) (inst : lcb_t)
    (fn : LibFn) (t : List Event) :
    returned g (answered L tbl inst fn t) =
      returned g t ++
        (if fn = g then [L.ret (callsOf (t ++ [Event.call ⟨fn, some inst⟩]))] else []) := by
  simp only [answered, returned_append, returned_served]
  by_cases h : fn = g <;> simp [returned, h]

theorem invocations_answered (L : Library) (tbl : List (Int × Callback)) (inst : lcb_t)
    (fn : LibFn) (t : List Event) :
    invocations (answered L tbl inst fn t) = invocations (served L tbl inst fn t) := by
  simp [answered, invocations_append, invocations]

theorem output_served (L : Library) (tbl : List (Int × Callback)) (inst : lcb_t)
    (fn : LibFn) (t : List Event) (p : List (Stream × String))
    (h : output t = p ++ (invocations t).map (outcomeLine L)) :
    output (served L tbl inst fn t) =
      p ++ (invocations (served L tbl inst fn t)).map (outcomeLine L) := by
  simp only [served, output_append, invocations_append, output_deliverEvents, h,
    List.map_append, List.append_assoc]
  simp [output, invocations]

theorem output_answered (L : Library) (tbl : List (Int × Callback)) (inst : lcb_t)
    (fn : LibFn) (t : List Event) (p : List (Stream × String))
    (h : output t = p ++ (invocations t).map (outcomeLine L)) :
    output (answered L tbl inst fn t) =
      p ++ (invocations (answered L tbl inst fn t)).map (outcomeLine L) := by
  rw [invocations_answered, ← output_served L tbl inst fn t p h]
  simp [answered, output_append, output]

/-! ## Facts about the trace of `main` -/

theorem traceOf_eq (L : Library) (argc : Int) (argv : List String) :
    traceOf L argc argv = mainTrace L := by
  simp [traceOf, run_eq]

theorem exitCode_eq (L : Library) (argc : Int) (argv : List String) :
    exitCode L argc argv = 0 := by
  simp [exitCode, run_eq]

theorem connectTrace_eq (L : Library) :
    connectTrace L =
      [Event.call ⟨LibFn.lcb_create, none⟩,
       Event.result LibFn.lcb_create (L.ret [⟨LibFn.lcb_create, none⟩]),
       Event.call ⟨LibFn.lcb_connect, some (theInstance L)⟩,
       Event.result LibFn.lcb_connect (L.ret [⟨LibFn.lcb_create, none⟩,
         ⟨LibFn.lcb_connect, some (theInstance L)⟩]),
       Event.call ⟨LibFn.lcb_wait, some (theInstance L)⟩,
       Event.result LibFn.lcb_wait (L.ret [⟨LibFn.lcb_create, none⟩,
         ⟨LibFn.lcb_connect, some (theInstance L)⟩, ⟨LibFn.lcb_wait, some (theInstance L)⟩])] := by
  simp [connectTrace, answered, served, deliverEvents_nil_table, callsOf]

theorem bootstrapStatus_eq (L : Library) :
    bootstrapStatus L = L.ret ((mainCalls L).take 4) := by
  simp [bootstrapStatus, connectTrace_eq, callsOf, mainCalls]

theorem bootTrace_eq (L : Library) :
    bootTrace L =
      connectTrace L ++
        [Event.call ⟨LibFn.lcb_get_bootstrap_status, some (theInstance L)⟩,
         Event.result LibFn.lcb_get_bootstrap_status (bootstrapStatus L)] ++
        (if bootstrapStatus L ≠ L.LCB_SUCCESS then [bootLine] else []) := by
  simp [bootTrace, answered, served, deliverEvents_nil_table, bootstrapStatus]

theorem directCalls_mainTrace (L : Library) : directCalls (mainTrace L) = mainCalls L := by
  simp only [mainTrace, directCalls_served, directCalls_answered, bootTrace_eq,
    connectTrace_eq, directCalls_append]
  split <;> simp [directCalls, mainCalls, bootLine]

theorem returned_status_mainTrace (L : Library) :
    returned LibFn.lcb_get_bootstrap_status (mainTrace L) = [bootstrapStatus L] := by
  simp only [mainTrace, returned_served, returned_answered, bootTrace_eq,
    connectTrace_eq, returned_append]
  split <;> simp [returned, bootLine]

theorem output_bootTrace (L : Library) :
    output (bootTrace L) = bootOutput L ++ (invocations (bootTrace L)).map (outcomeLine L) := by
  simp only [bootTrace_eq, connectTrace_eq, bootOutput]
  split <;> simp [output, invocations, bootLine]

theorem output_mainTrace (L : Library) :
    output (mainTrace L) = bootOutput L ++ (invocations (mainTrace L)).map (outcomeLine L) := by
  unfold mainTrace
  exact output_served _ _ _ _ _ _ (output_answered _ _ _ _ _ _ (output_answered _ _ _ _ _ _
    (output_served _ _ _ _ _ _ (output_bootTrace L))))

theorem outcomeLine_of_failure (L : Library) (rc : lcb_error_t) (h : rc ≠ L.LCB_SUCCESS) :
    outcomeLine L rc =
      (Stream.stderr, "Couldn't flush bucket: " ++ L.lcb_strerror rc ++ "\n") := by
  simp [outcomeLine, h]

theorem outcomeLine_of_success (L : Library) :
    outcomeLine L L.LCB_SUCCESS = (Stream.stdout, "Flush successful\n") := by
  simp [outcomeLine]

theorem outcomeLine_ne_boot (L : Library) (rc : lcb_error_t) :
    outcomeLine L rc ≠ (Stream.stdout, "Couldn't bootstrap!\n") := by
  unfold outcomeLine
  split
  · simp
  · simp only [ne_eq, Prod.mk.injEq, true_and]
    decide

theorem success_not_mem_bootOutput (L : Library) :
    (Stream.stdout, "Flush successful\n") ∉ bootOutput L := by
  unfold bootOutput
  split
  · simp only [List.mem_singleton, Prod.mk.injEq, true_and]
    decide
  · simp

theorem mainTrace_split (L : Library) :
    ∃ r, mainTrace L = bootTrace L ++ r ∧ directCalls r = (mainCalls L).drop 4 := by
  have h : ∃ r, mainTrace L = bootTrace L ++ r := by
    simp only [mainTrace, served, answered, List.append_assoc]
    exact ⟨_, rfl⟩
  obtain ⟨r, hr⟩ := h
  refine ⟨r, hr, ?_⟩
  have hd := directCalls_mainTrace L
  rw [hr, directCalls_append] at hd
  have hb : directCalls (bootTrace L) = (mainCalls L).take 4 := by
    simp only [bootTrace_eq, connectTrace_eq]
    split <;> simp [directCalls, mainCalls, bootLine]
  rw [hb] at hd
  have hsplit : mainCalls L = (mainCalls L).take 4 ++ (mainCalls L).drop 4 :=
    (List.take_append_drop 4 _).symm
  rw [hsplit] at hd
  simpa using List.append_cancel_left hd

theorem callsOf_served (L : Library) (tbl : List (Int × Callback)) (inst : lcb_t)
    (fn : LibFn) (t : List Event) :
    callsOf (served L tbl inst fn t) =
      callsOf t ++ ⟨fn, some inst⟩ ::
        callsOf (deliverEvents L tbl inst (L.dispatch (callsOf t ++ [⟨fn, some inst⟩]))) := by
  simp only [served, callsOf_append, List.append_assoc]
  rfl

theorem callsOf_answered (L : Library) (tbl : List (Int × Callback)) (inst : lcb_t)
    (fn : LibFn) (t : List Event) :
    callsOf (answered L tbl inst fn t) = callsOf (served L tbl inst fn t) := by
  simp [answered, callsOf_append, callsOf]

theorem filter_callsOf_deliverEvents (p : Call → Bool)
    (hp : ∀ rc, p ⟨LibFn.lcb_strerror rc, none⟩ = false)
    (L : Library) (tbl : List (Int × Callback)) (inst : lcb_t)
    (rs : List (Int × lcb_RESPCBFLUSH)) :
    (callsOf (deliverEvents L tbl inst rs)).filter p = [] := by
  rw [List.filter_eq_nil_iff]
  intro c hc
  obtain ⟨hnone, rc, hfn⟩ := callsOf_deliverEvents_inst L tbl inst rs c hc
  have hc2 : c = ⟨LibFn.lcb_strerror rc, none⟩ := by
    cases c; simp_all
  simp [hc2, hp]

theorem filter_callsOf_served (p : Call → Bool)
    (hp : ∀ rc, p ⟨LibFn.lcb_strerror rc, none⟩ = false)
    (L : Library) (tbl : List (Int × Callback)) (inst : lcb_t) (fn : LibFn) (t : List Event) :
    (callsOf (served L tbl inst fn t)).filter p =
      (callsOf t).filter p ++ [(⟨fn, some inst⟩ : Call)].filter p := by
  rw [callsOf_served, List.filter_append, List.filter_cons,
    filter_callsOf_deliverEvents p hp]
  simp [List.filter_cons]

theorem callsOf_bootTrace (L : Library) : callsOf (bootTrace L) = (mainCalls L).take 4 := by
  simp only [bootTrace_eq, connectTrace_eq]
  split <;> simp [callsOf, mainCalls, bootLine]

theorem filter_callsOf_mainTrace (p : Call → Bool)
    (hp : ∀ rc, p ⟨LibFn.lcb_strerror rc, none⟩ = false) (L : Library) :
    (callsOf (mainTrace L)).filter p = (mainCalls L).filter p := by
  simp only [mainTrace, filter_callsOf_served p hp, callsOf_answered, callsOf_bootTrace,
    ← List.filter_append]
  rfl

theorem mem_directCalls (c : Call) (t : List Event) :
    c ∈ directCalls t ↔ Event.call c ∈ t := by
  simp only [directCalls, List.mem_filterMap]
  constructor
  · rintro ⟨e, he, hm⟩
    cases e <;> simp at hm
    subst hm
    exact he
  · intro h
    exact ⟨_, h, rfl⟩

theorem append_cons_unique {α : Type} (a : α) (l1 l2 xs ys : List α)
    (h1 : a ∉ l1) (h2 : a ∉ l2) (h : xs ++ a :: ys = l1 ++ a :: l2) : xs = l1 := by
  induction l1 generalizing xs with
  | nil =>
    cases xs with
    | nil => rfl
    | cons x xs =>
      simp only [List.cons_append, List.nil_append, List.cons.injEq] at h
      exact absurd (h.2 ▸ List.mem_append_right xs (List.mem_cons_self a ys)) h2
  | cons b l1 ih =>
    cases xs with
    | nil =>
      simp only [List.nil_append, List.cons_append, List.cons.injEq] at h
      exact absurd (h.1 ▸ List.mem_cons_self b l1) h1
    | cons x xs =>
      simp only [List.cons_append, List.cons.injEq] at h
      rw [h.1, ih xs (fun hm => h1 (List.mem_cons_of_mem _ hm)) h.2]

theorem mainTrace_destroy_split (L : Library) :
    ∃ (pre post : List Event),
      mainTrace L = pre ++ Event.call ⟨LibFn.lcb_destroy, some (theInstance L)⟩ :: post ∧
      (callsOf pre).filter (fun c => c.fn = LibFn.lcb_destroy) = [] ∧
      (∀ c ∈ callsOf post, c.inst = none) := by
  refine ⟨flushedTrace L, deliverEvents L (flushTable L) (theInstance L)
    (L.dispatch (callsOf (flushedTrace L ++
      [Event.call ⟨LibFn.lcb_destroy, some (theInstance L)⟩]))), ?_, ?_, ?_⟩
  · simp only [mainTrace, flushedTrace, served, List.append_assoc, List.singleton_append]
  · have hp : ∀ rc, (fun c : Call => decide (c.fn = LibFn.lcb_destroy))
        ⟨LibFn.lcb_strerror rc, none⟩ = false := by simp
    unfold flushedTrace
    rw [callsOf_answered, filter_callsOf_served _ hp, callsOf_answered,
      filter_callsOf_served _ hp, filter_callsOf_served _ hp, callsOf_bootTrace]
    simp [mainCalls, List.filter_cons]
  · intro c hc
    exact (callsOf_deliverEvents_inst L _ _ _ c hc).1

theorem unaffected_append (a b : List Event) :
    unaffected (a ++ b) = unaffected a ++ unaffected b := by
  simp [unaffected]

theorem deliverEvents_withReturns (L : Library) (ret2 : List Call → lcb_error_t)
    (tbl : List (Int × Callback)) (inst : lcb_t) (rs : List (Int × lcb_RESPCBFLUSH)) :
    deliverEvents (withReturns L ret2) tbl inst rs = deliverEvents L tbl inst rs := by
  induction rs with
  | nil => rfl
  | cons r rs ih =>
    simp only [deliverEvents, ih]
    rfl

theorem served_withReturns (L : Library) (ret2 : List Call → lcb_error_t)
    (tbl : List (Int × Callback)) (inst : lcb_t) (fn : LibFn) (t t2 : List Event)
    (hc : callsOf t2 = callsOf t) (hu : unaffected t2 = unaffected t) :
    callsOf (served (withReturns L ret2) tbl inst fn t2) = callsOf (served L tbl inst fn t) ∧
      unaffected (served (withReturns L ret2) tbl inst fn t2) =
        unaffected (served L tbl inst fn t) := by
  have hd : (withReturns L ret2).dispatch = L.dispatch := rfl
  constructor
  · rw [callsOf_served, callsOf_served, hc, deliverEvents_withReturns, hd]
  · simp only [served, unaffected_append, callsOf_append, hu, hc, deliverEvents_withReturns, hd]

theorem answered_withReturns (L : Library) (ret2 : List Call → lcb_error_t)
    (tbl : List (Int × Callback)) (inst : lcb_t) (fn : LibFn) (t t2 : List Event)
    (hc : callsOf t2 = callsOf t) (hu : unaffected t2 = unaffected t) :
    callsOf (answered (withReturns L ret2) tbl inst fn t2) =
        callsOf (answered L tbl inst fn t) ∧
      unaffected (answered (withReturns L ret2) tbl inst fn t2) =
        unaffected (answered L tbl inst fn t) := by
  obtain ⟨h1, h2⟩ := served_withReturns L ret2 tbl inst fn t t2 hc hu
  constructor
  · rw [callsOf_answered, callsOf_answered, h1]
  · simp only [answered, unaffected_append, h2]
    simp [unaffected]

theorem bootTrace_withReturns (L : Library) (ret2 : List Call → lcb_error_t) :
    callsOf (bootTrace (withReturns L ret2)) = callsOf (bootTrace L) ∧
      unaffected (bootTrace (withReturns L ret2)) = unaffected (bootTrace L) := by
  constructor
  · rw [callsOf_bootTrace, callsOf_bootTrace]
    rfl
  · simp only [bootTrace_eq, connectTrace_eq, unaffected_append]
    have hi : theInstance (withReturns L ret2) = theInstance L := rfl
    rw [hi]
    split <;> split <;> simp [unaffected, bootLine]

theorem mainTrace_withReturns (L : Library) (ret2 : List Call → lcb_error_t) :
    unaffected (mainTrace (withReturns L ret2)) = unaffected (mainTrace L) := by
  obtain ⟨h1, h2⟩ := bootTrace_withReturns L ret2
  have hi : theInstance (withReturns L ret2) = theInstance L := rfl
  have ht : flushTable (withReturns L ret2) = flushTable L := rfl
  have hk : (withReturns L ret2).LCB_CALLBACK_CBFLUSH = L.LCB_CALLBACK_CBFLUSH := rfl
  unfold mainTrace
  rw [hi, ht, hk]
  obtain ⟨h3, h4⟩ := served_withReturns L ret2 (flushTable L) (theInstance L)
    (LibFn.lcb_install_callback3 L.LCB_CALLBACK_CBFLUSH Callback.flush_callback) _ _ h1 h2
  obtain ⟨h5, h6⟩ := answered_withReturns L ret2 (flushTable L) (theInstance L)
    LibFn.lcb_cbflush3 _ _ h3 h4
  obtain ⟨h7, h8⟩ := answered_withReturns L ret2 (flushTable L) (theInstance L)
    LibFn.lcb_wait _ _ h5 h6
  exact (served_withReturns L ret2 (flushTable L) (theInstance L) LibFn.lcb_destroy _ _ h7 h8).2

theorem textOn_append (s : Stream) (a b : List Event) :
    textOn s (a ++ b) = textOn s a ++ textOn s b := by
  unfold textOn
  rw [output_append, List.filter_append, List.map_append]
  apply String.ext
  simp [String.data_join]

theorem mem_output (s : Stream) (text : String) (t : List Event) :
    (s, text) ∈ output t ↔ Event.write s text ∈ t := by
  simp only [output, List.mem_filterMap]
  constructor
  · rintro ⟨e, he, hm⟩
    cases e <;> simp at hm
    obtain ⟨h1, h2⟩ := hm
    subst h1 h2
    exact he
  · intro h
    exact ⟨_, h, rfl⟩

theorem outcomeLine_newlines (L : Library) (rc : lcb_error_t)
    (h : '\n' ∉ (L.lcb_strerror rc).toList) :
    (outcomeLine L rc).2.toList.count '\n' = 1 := by
  unfold outcomeLine
  split
  · have h0 : List.count '\n' (L.lcb_strerror rc).data = 0 :=
      List.count_eq_zero_of_not_mem h
    have h1 : List.count '\n' "Couldn't flush bucket: ".data = 0 := by decide
    have h2 : List.count '\n' "\n".data = 1 := by decide
    simp only [String.toList, String.data_append, List.count_append, h0, h1, h2]
  · decide

theorem outcomeLine_terminated (L : Library) (rc : lcb_error_t) :
    (outcomeLine L rc).2.toList.getLast? = some '\n' := by
  unfold outcomeLine
  split
  · have h2 : "\n".data = ['\n'] := rfl
    simp only [String.toList, String.data_append, h2, List.getLast?_append,
      List.getLast?_singleton]
    rfl
  · decide

theorem printsOn_stdout_outcomes (L : Library) (l : List lcb_error_t) :
    (((l.map (outcomeLine L)).filter (fun p => p.1 = Stream.stdout)).map Prod.snd) =
      (l.filter (fun rc => rc = L.LCB_SUCCESS)).map (fun _ => "Flush successful\n") := by
  induction l with
  | nil => rfl
  | cons rc l ih =>
    by_cases h : rc = L.LCB_SUCCESS
    · rw [List.map_cons, h, outcomeLine_of_success, List.filter_cons_of_pos (by simp),
        List.filter_cons_of_pos (by simp), List.map_cons, List.map_cons, ih]
    · rw [List.map_cons, outcomeLine_of_failure L rc h, List.filter_cons_of_neg (by simp),
        List.filter_cons_of_neg (by simpa using h), ih]

theorem printsOn_stderr_outcomes (L : Library) (l : List lcb_error_t) :
    (((l.map (outcomeLine L)).filter (fun p => p.1 = Stream.stderr)).map Prod.snd) =
      (l.filter (fun rc => rc ≠ L.LCB_SUCCESS)).map
        (fun rc => "Couldn't flush bucket: " ++ L.lcb_strerror rc ++ "\n") := by
  induction l with
  | nil => rfl
  | cons rc l ih =>
    by_cases h : rc = L.LCB_SUCCESS
    · rw [List.map_cons, h, outcomeLine_of_success, List.filter_cons_of_neg (by simp),
        List.filter_cons_of_neg (by simp), ih]
    · rw [List.map_cons, outcomeLine_of_failure L rc h, List.filter_cons_of_pos (by simp),
        List.filter_cons_of_pos (by simpa using h), List.map_cons, List.map_cons, ih]

theorem printsOn_boot_stdout :
    (([(Stream.stdout, "Couldn't bootstrap!\n")] : List (Stream × String)).filter
      (fun p => p.1 = Stream.stdout)).map Prod.snd = ["Couldn't bootstrap!\n"] := by
  simp

theorem printsOn_boot_stderr :
    (([(Stream.stdout, "Couldn't bootstrap!\n")] : List (Stream × String)).filter
      (fun p => p.1 = Stream.stderr)).map Prod.snd = [] := by
  simp

theorem textOn_eq_join (s : Stream) (t : List Event) :
    textOn s t = String.join (printsOn s t) := rfl

theorem join_cons (a : String) (l : List String) :
    String.join (a :: l) = a ++ String.join l := by
  apply String.ext
  simp [String.data_join]

/-! ## The claims -/

/-- C1 (success path): in every run of `main` in which `lcb_get_bootstrap_status`
returns `LCB_SUCCESS` and the library invokes the installed flush callback
exactly once, with status `LCB_SUCCESS`, the prints of the program are exactly
the one line "Flush successful" on standard output (no bootstrap-failure line,
nothing on standard error) and `main` returns 0. -/
theorem C1_success_path (L : Library) (argc : Int) (argv : List String)
    (hboot : returned LibFn.lcb_get_bootstrap_status (traceOf L argc argv) = [L.LCB_SUCCESS])
    (hcb : invocations (traceOf L argc argv) = [L.LCB_SUCCESS]) :
    output (traceOf L argc argv) = [(Stream.stdout, "Flush successful\n")] ∧
      textOn Stream.stdout (traceOf L argc argv) = "Flush successful\n" ∧
      textOn Stream.stderr (traceOf L argc argv) = "" ∧
      exitCode L argc argv = 0 := by
  rw [traceOf_eq] at hboot hcb ⊢
  rw [returned_status_mainTrace] at hboot
  have hb : bootstrapStatus L = L.LCB_SUCCESS := by simpa using hboot
  have hout : output (mainTrace L) = [(Stream.stdout, "Flush successful\n")] := by
    rw [output_mainTrace, hcb]
    simp [bootOutput, hb, outcomeLine]
  refine ⟨hout, ?_, ?_, exitCode_eq L argc argv⟩
  · simp [textOn, hout, String.join]
  · simp [textOn, hout, String.join]

/-- Witness for C1: the run against the all-success library. -/
theorem C1_success_path_witness :
    returned LibFn.lcb_get_bootstrap_status (traceOf okLib 1 ["flush"]) = [okLib.LCB_SUCCESS] ∧
      invocations (traceOf okLib 1 ["flush"]) = [okLib.LCB_SUCCESS] ∧
      (output (traceOf okLib 1 ["flush"]) = [(Stream.stdout, "Flush successful\n")] ∧
        textOn Stream.stdout (traceOf okLib 1 ["flush"]) = "Flush successful\n" ∧
        textOn Stream.stderr (traceOf okLib 1 ["flush"]) = "" ∧
        exitCode okLib 1 ["flush"] = 0) :=
  ⟨by rfl, by rfl, C1_success_path okLib 1 ["flush"] (by rfl) (by rfl)⟩

/-- C2 (flush failure): for every status `rc` other than `LCB_SUCCESS`, an
invocation of the flush callback with that status makes exactly one print, the
error line built from `lcb_strerror(NULL, rc)` on standard error; in every run
in which the callback is invoked with `rc` that line is in the output, "Flush
successful" is not printed unless some invocation carries `LCB_SUCCESS`, when
`rc` is the only invocation the text on standard error is exactly that line,
and `main` returns 0. -/
theorem C2_flush_failure (L : Library) (rc : lcb_error_t) (hrc : rc ≠ L.LCB_SUCCESS)
    (argc : Int) (argv : List String) (hinv : rc ∈ invocations (traceOf L argc argv)) :
    (∀ (inst : lcb_t) (cbtype : Int) (w : World),
        output (flush_callback L inst cbtype ⟨rc⟩ w).2.trace =
          output w.trace ++
            [(Stream.stderr, "Couldn't flush bucket: " ++ L.lcb_strerror rc ++ "\n")]) ∧
      (Stream.stderr, "Couldn't flush bucket: " ++ L.lcb_strerror rc ++ "\n") ∈
        output (traceOf L argc argv) ∧
      ((∀ r ∈ invocations (traceOf L argc argv), r ≠ L.LCB_SUCCESS) →
        (Stream.stdout, "Flush successful\n") ∉ output (traceOf L argc argv)) ∧
      (invocations (traceOf L argc argv) = [rc] →
        textOn Stream.stderr (traceOf L argc argv) =
          "Couldn't flush bucket: " ++ L.lcb_strerror rc ++ "\n") ∧
      exitCode L argc argv = 0 := by
  rw [traceOf_eq] at hinv ⊢
  refine ⟨?_, ?_, ?_, ?_, exitCode_eq L argc argv⟩
  · intro inst cbtype w
    simp [flush_callback_eq, callbackEvents, hrc, output]
  · rw [output_mainTrace, ← outcomeLine_of_failure L rc hrc]
    exact List.mem_append_right _ (List.mem_map_of_mem _ hinv)
  · intro hall hmem
    rw [output_mainTrace, List.mem_append] at hmem
    rcases hmem with hmem | hmem
    · exact success_not_mem_bootOutput L hmem
    · obtain ⟨r, hr, hline⟩ := List.mem_map.mp hmem
      rw [outcomeLine_of_failure L r (hall r hr)] at hline
      simp at hline
  · intro hone
    unfold textOn
    rw [output_mainTrace, hone]
    unfold bootOutput
    split <;> simp [outcomeLine, hrc, String.join]

/-- Witness for C2: the run against the library that refuses the flush. -/
theorem C2_flush_failure_witness :
    (22 : lcb_error_t) ≠ failLib.LCB_SUCCESS ∧
      (22 : lcb_error_t) ∈ invocations (traceOf failLib 1 ["flush"]) ∧
      (Stream.stderr, "Couldn't flush bucket: Generic error\n") ∈
        output (traceOf failLib 1 ["flush"]) ∧
      exitCode failLib 1 ["flush"] = 0 :=
  ⟨by decide, by decide,
    (C2_flush_failure failLib 22 (by decide) 1 ["flush"] (by decide)).2.1,
    (C2_flush_failure failLib 22 (by decide) 1 ["flush"] (by decide)).2.2.2.2⟩

/-- C3 (bootstrap failure is not an early exit): in every run of `main` in which
`lcb_get_bootstrap_status` returns a status other than `LCB_SUCCESS`, the trace
is the four bootstrap calls, then the print "Couldn't bootstrap!" on standard
output, then the direct calls `lcb_install_callback3` (for
`LCB_CALLBACK_CBFLUSH`, with `flush_callback`), `lcb_cbflush3`, `lcb_wait` and
`lcb_destroy` in that order; and when the status is `LCB_SUCCESS` the
bootstrap-failure line is not printed. -/
theorem C3_bootstrap_failure_continues (L : Library) (argc : Int) (argv : List String) :
    (∀ s, returned LibFn.lcb_get_bootstrap_status (traceOf L argc argv) = [s] →
        s ≠ L.LCB_SUCCESS →
        ∃ (h : lcb_t) (pre post : List Event),
          traceOf L argc argv =
            pre ++ Event.write Stream.stdout "Couldn't bootstrap!\n" :: post ∧
          directCalls pre =
            [⟨LibFn.lcb_create, none⟩, ⟨LibFn.lcb_connect, some h⟩,
             ⟨LibFn.lcb_wait, some h⟩, ⟨LibFn.lcb_get_bootstrap_status, some h⟩] ∧
          directCalls post =
            [⟨LibFn.lcb_install_callback3 L.LCB_CALLBACK_CBFLUSH Callback.flush_callback,
               some h⟩,
             ⟨LibFn.lcb_cbflush3, some h⟩, ⟨LibFn.lcb_wait, some h⟩,
             ⟨LibFn.lcb_destroy, some h⟩]) ∧
      (returned LibFn.lcb_get_bootstrap_status (traceOf L argc argv) = [L.LCB_SUCCESS] →
        (Stream.stdout, "Couldn't bootstrap!\n") ∉ output (traceOf L argc argv)) := by
  rw [traceOf_eq, returned_status_mainTrace]
  constructor
  · intro s hs hne
    have hb : bootstrapStatus L ≠ L.LCB_SUCCESS := by
      have : bootstrapStatus L = s := by simpa using hs
      rw [this]; exact hne
    obtain ⟨r, hr, hd⟩ := mainTrace_split L
    refine ⟨theInstance L, connectTrace L ++
      [Event.call ⟨LibFn.lcb_get_bootstrap_status, some (theInstance L)⟩,
       Event.result LibFn.lcb_get_bootstrap_status (bootstrapStatus L)], r, ?_, ?_, ?_⟩
    · rw [hr, bootTrace_eq]
      simp [hb, bootLine]
    · simp [connectTrace_eq, directCalls]
    · rw [hd]; simp [mainCalls]
  · intro hs hmem
    have hb : bootstrapStatus L = L.LCB_SUCCESS := by simpa using hs
    rw [output_mainTrace] at hmem
    simp only [bootOutput, hb, ne_eq, not_true_eq_false, if_false, List.nil_append] at hmem
    obtain ⟨r, _, hline⟩ := List.mem_map.mp hmem
    exact outcomeLine_ne_boot L r hline

/-- Witness for C3: a run with a failed bootstrap and a run with a successful one. -/
theorem C3_bootstrap_failure_continues_witness :
    (∃ (h : lcb_t) (pre post : List Event),
        traceOf downLib 1 ["flush"] =
          pre ++ Event.write Stream.stdout "Couldn't bootstrap!\n" :: post ∧
        directCalls pre =
          [⟨LibFn.lcb_create, none⟩, ⟨LibFn.lcb_connect, some h⟩,
           ⟨LibFn.lcb_wait, some h⟩, ⟨LibFn.lcb_get_bootstrap_status, some h⟩] ∧
        directCalls post =
          [⟨LibFn.lcb_install_callback3 downLib.LCB_CALLBACK_CBFLUSH Callback.flush_callback,
             some h⟩,
           ⟨LibFn.lcb_cbflush3, some h⟩, ⟨LibFn.lcb_wait, some h⟩,
           ⟨LibFn.lcb_destroy, some h⟩]) ∧
      (Stream.stdout, "Couldn't bootstrap!\n") ∉ output (traceOf okLib 1 ["flush"]) :=
  ⟨(C3_bootstrap_failure_continues downLib 1 ["flush"]).1 24 (by rfl) (by decide),
    (C3_bootstrap_failure_continues okLib 1 ["flush"]).2 (by rfl)⟩

/-- C7 (uniform exit code): every run of `main` returns 0, whatever the library
returns and whether or not it ever invokes the flush callback. -/
theorem C7_uniform_exit_code (L : Library) (argc : Int) (argv : List String) :
    exitCode L argc argv = 0 :=
  exitCode_eq L argc argv

/-- C9 (no process inputs are read): two runs of `main` against the same
library with different `argc` and `argv` are the same state transformer, so
they make the same library calls, the same prints and return the same code. -/
theorem C9_arguments_unused (L : Library) (argc argc2 : Int) (argv argv2 : List String) :
    main L argc argv = main L argc2 argv2 ∧
      callsOf (traceOf L argc argv) = callsOf (traceOf L argc2 argv2) ∧
      directCalls (traceOf L argc argv) = directCalls (traceOf L argc2 argv2) ∧
      output (traceOf L argc argv) = output (traceOf L argc2 argv2) ∧
      exitCode L argc argv = exitCode L argc2 argv2 :=
  ⟨rfl, rfl, rfl, rfl, rfl⟩

/-- C4 (instance lifecycle): in every run of `main`, whatever the library
returns, the first library call is `lcb_create`, it is made exactly once,
`lcb_destroy` is made exactly once, the calls that are passed an instance are
`lcb_connect`, `lcb_wait`, `lcb_get_bootstrap_status`, `lcb_install_callback3`,
`lcb_cbflush3`, `lcb_wait`, `lcb_destroy`, all on the handle stored by
`lcb_create`, and no library call after `lcb_destroy` is passed an instance. -/
theorem C4_instance_lifecycle (L : Library) (argc : Int) (argv : List String) :
    ∃ (h : lcb_t) (pre post : List Event),
      h = L.newInstance [⟨LibFn.lcb_create, none⟩] ∧
      (callsOf (traceOf L argc argv)).head? = some ⟨LibFn.lcb_create, none⟩ ∧
      ((callsOf (traceOf L argc argv)).filter (fun c => c.fn = LibFn.lcb_create)).length = 1 ∧
      ((callsOf (traceOf L argc argv)).filter (fun c => c.fn = LibFn.lcb_destroy)).length = 1 ∧
      (callsOf (traceOf L argc argv)).filter (fun c => c.inst.isSome) =
        [⟨LibFn.lcb_connect, some h⟩, ⟨LibFn.lcb_wait, some h⟩,
         ⟨LibFn.lcb_get_bootstrap_status, some h⟩,
         ⟨LibFn.lcb_install_callback3 L.LCB_CALLBACK_CBFLUSH Callback.flush_callback, some h⟩,
         ⟨LibFn.lcb_cbflush3, some h⟩, ⟨LibFn.lcb_wait, some h⟩,
         ⟨LibFn.lcb_destroy, some h⟩] ∧
      traceOf L argc argv = pre ++ Event.call ⟨LibFn.lcb_destroy, some h⟩ :: post ∧
      (∀ c ∈ callsOf pre, c.fn ≠ LibFn.lcb_destroy) ∧
      (∀ c ∈ callsOf post, c.inst = none) := by
  rw [traceOf_eq]
  obtain ⟨pre, post, hsplit, hpre, hpost⟩ := mainTrace_destroy_split L
  refine ⟨theInstance L, pre, post, rfl, ?_, ?_, ?_, ?_, hsplit, ?_, hpost⟩
  · obtain ⟨r, hr, _⟩ := mainTrace_split L
    rw [hr, callsOf_append, callsOf_bootTrace]
    simp [mainCalls]
  · rw [filter_callsOf_mainTrace _ (by simp)]
    simp [mainCalls, List.filter_cons]
  · rw [filter_callsOf_mainTrace _ (by simp)]
    simp [mainCalls, List.filter_cons]
  · rw [filter_callsOf_mainTrace _ (by simp)]
    simp [mainCalls, List.filter_cons]
  · intro c hc hfn
    have hmem : c ∈ (callsOf pre).filter (fun c => c.fn = LibFn.lcb_destroy) :=
      List.mem_filter.mpr ⟨hc, by simpa using hfn⟩
    rw [hpre] at hmem
    exact absurd hmem (List.not_mem_nil c)

/-- C5 (registration precedes submission): in every run of `main` the call
`lcb_cbflush3` occurs, and wherever it occurs in the trace the call
`lcb_install_callback3(instance, LCB_CALLBACK_CBFLUSH, flush_callback)` on the
same instance lies strictly before it; no other handler is ever installed. -/
theorem C5_registration_precedes_submission (L : Library) (argc : Int) (argv : List String) :
    (∃ h, Event.call ⟨LibFn.lcb_cbflush3, some h⟩ ∈ traceOf L argc argv) ∧
      (∀ (pre post : List Event) (i : Option lcb_t),
        traceOf L argc argv = pre ++ Event.call ⟨LibFn.lcb_cbflush3, i⟩ :: post →
        Event.call ⟨LibFn.lcb_install_callback3 L.LCB_CALLBACK_CBFLUSH Callback.flush_callback,
          i⟩ ∈ pre) ∧
      (∀ (k : Int) (cb : Callback) (i : Option lcb_t),
        Event.call ⟨LibFn.lcb_install_callback3 k cb, i⟩ ∈ traceOf L argc argv →
        k = L.LCB_CALLBACK_CBFLUSH ∧ cb = Callback.flush_callback) := by
  rw [traceOf_eq]
  refine ⟨⟨theInstance L, ?_⟩, ?_, ?_⟩
  · rw [← mem_directCalls, directCalls_mainTrace]
    simp [mainCalls]
  · intro pre post i hsplit
    have hd := directCalls_mainTrace L
    rw [hsplit, directCalls_append] at hd
    have hcons : directCalls (Event.call ⟨LibFn.lcb_cbflush3, i⟩ :: post) =
        ⟨LibFn.lcb_cbflush3, i⟩ :: directCalls post := by
      simp [directCalls]
    rw [hcons] at hd
    have hi : i = some (theInstance L) := by
      have hm : (⟨LibFn.lcb_cbflush3, i⟩ : Call) ∈ mainCalls L := by
        rw [← hd]; simp
      simpa [mainCalls] using hm
    subst hi
    have hpre := append_cons_unique (⟨LibFn.lcb_cbflush3, some (theInstance L)⟩ : Call)
      ((mainCalls L).take 5) ((mainCalls L).drop 6) (directCalls pre) (directCalls post)
      (by simp [mainCalls]) (by simp [mainCalls]) (by rw [hd]; simp [mainCalls])
    rw [← mem_directCalls, hpre]
    simp [mainCalls]
  · intro k cb i hmem
    rw [← mem_directCalls, directCalls_mainTrace] at hmem
    simp [mainCalls] at hmem
    exact ⟨hmem.1, by cases cb; rfl⟩

/-- Witness for C5: the split of the all-success run at its `lcb_cbflush3` call. -/
theorem C5_registration_precedes_submission_witness :
    traceOf okLib 1 ["flush"] =
        (traceOf okLib 1 ["flush"]).take 9 ++
          Event.call ⟨LibFn.lcb_cbflush3, some 4096⟩ :: (traceOf okLib 1 ["flush"]).drop 10 ∧
      Event.call ⟨LibFn.lcb_install_callback3 okLib.LCB_CALLBACK_CBFLUSH
          Callback.flush_callback, some 4096⟩ ∈ (traceOf okLib 1 ["flush"]).take 9 :=
  ⟨by rfl, (C5_registration_precedes_submission okLib 1 ["flush"]).2.1 _ _ _ (by rfl)⟩

/-- C6 (fixed linear sequence): for every library behaviour the library calls
made directly by `main` are `lcb_create`, `lcb_connect`, `lcb_wait`,
`lcb_get_bootstrap_status`, `lcb_install_callback3`, `lcb_cbflush3`, `lcb_wait`,
`lcb_destroy`, in this order; replacing the statuses the library returns by any
others leaves the trace unchanged apart from the records of those statuses and
the bootstrap-failure print, and that print occurs exactly when the bootstrap
status is not `LCB_SUCCESS`. -/
theorem C6_fixed_linear_sequence (L : Library) (argc : Int) (argv : List String) :
    (directCalls (traceOf L argc argv)).map Call.fn =
        [LibFn.lcb_create, LibFn.lcb_connect, LibFn.lcb_wait, LibFn.lcb_get_bootstrap_status,
         LibFn.lcb_install_callback3 L.LCB_CALLBACK_CBFLUSH Callback.flush_callback,
         LibFn.lcb_cbflush3, LibFn.lcb_wait, LibFn.lcb_destroy] ∧
      (∀ ret2 : List Call → lcb_error_t,
        unaffected (traceOf (withReturns L ret2) argc argv) =
          unaffected (traceOf L argc argv)) ∧
      (Event.write Stream.stdout "Couldn't bootstrap!\n" ∈ traceOf L argc argv ↔
        returned LibFn.lcb_get_bootstrap_status (traceOf L argc argv) ≠ [L.LCB_SUCCESS]) := by
  rw [traceOf_eq]
  refine ⟨?_, ?_, ?_⟩
  · rw [directCalls_mainTrace]
    rfl
  · intro ret2
    rw [traceOf_eq]
    exact mainTrace_withReturns L ret2
  · rw [returned_status_mainTrace]
    have hout : Event.write Stream.stdout "Couldn't bootstrap!\n" ∈ mainTrace L ↔
        (Stream.stdout, "Couldn't bootstrap!\n") ∈ output (mainTrace L) := by
      simp only [output, List.mem_filterMap]
      constructor
      · intro h
        exact ⟨_, h, rfl⟩
      · rintro ⟨e, he, hm⟩
        cases e <;> simp at hm
        obtain ⟨h1, h2⟩ := hm
        subst h1 h2
        exact he
    rw [hout, output_mainTrace]
    by_cases hb : bootstrapStatus L = L.LCB_SUCCESS
    · simp only [bootOutput, hb, ne_eq, not_true_eq_false, if_false, List.nil_append]
      constructor
      · intro hmem
        obtain ⟨r, _, hline⟩ := List.mem_map.mp hmem
        exact absurd hline (outcomeLine_ne_boot L r)
      · intro h
        exact h.elim
    · simp [bootOutput, hb]

/-- C8, as stated, fails: against a library whose bootstrap status is not
`LCB_SUCCESS` and which never delivers a flush response, the whole output is the
bootstrap-failure line, with no flush outcome line after it. -/
theorem C8_unreachable_store_counterexample :
    returned LibFn.lcb_get_bootstrap_status (traceOf downLib 1 ["flush"]) = [24] ∧
      (24 : lcb_error_t) ≠ downLib.LCB_SUCCESS ∧
      output (traceOf downLib 1 ["flush"]) = [(Stream.stdout, "Couldn't bootstrap!\n")] ∧
      ¬ ∃ p ∈ output (traceOf downLib 1 ["flush"]),
          p = (Stream.stdout, "Flush successful\n") ∨
            ∃ rc, p = (Stream.stderr,
              "Couldn't flush bucket: " ++ downLib.lcb_strerror rc ++ "\n") := by
  have hout : output (traceOf downLib 1 ["flush"]) =
      [(Stream.stdout, "Couldn't bootstrap!\n")] := by rfl
  refine ⟨by rfl, by decide, hout, ?_⟩
  rw [hout]
  rintro ⟨p, hp, h | ⟨rc, h⟩⟩
  · rw [List.mem_singleton] at hp
    rw [hp] at h
    exact absurd h (by decide)
  · rw [List.mem_singleton] at hp
    rw [hp] at h
    exact Stream.noConfusion (congrArg Prod.fst h)

/-- C8 (amended, stated per stream): in every run of `main` in which
`lcb_get_bootstrap_status` returns a status other than `LCB_SUCCESS`, standard
output holds the line "Couldn't bootstrap!" followed by one "Flush successful"
line for each invocation of the flush callback with `LCB_SUCCESS`, and standard
error holds one "Couldn't flush bucket: ..." line for each invocation with
another status, in the order of the invocations.  So when the library invokes
the callback at least once a flush outcome line is printed: a success line
after the bootstrap line on standard output, or an error line on standard
error.  Nothing is said about the order between the two streams. -/
theorem C8_unreachable_store_amended (L : Library) (argc : Int) (argv : List String)
    (s : lcb_error_t)
    (hs : returned LibFn.lcb_get_bootstrap_status (traceOf L argc argv) = [s])
    (hne : s ≠ L.LCB_SUCCESS) :
    printsOn Stream.stdout (traceOf L argc argv) =
        "Couldn't bootstrap!\n" ::
          ((invocations (traceOf L argc argv)).filter (fun rc => rc = L.LCB_SUCCESS)).map
            (fun _ => "Flush successful\n") ∧
      printsOn Stream.stderr (traceOf L argc argv) =
        ((invocations (traceOf L argc argv)).filter (fun rc => rc ≠ L.LCB_SUCCESS)).map
          (fun rc => "Couldn't flush bucket: " ++ L.lcb_strerror rc ++ "\n") ∧
      textOn Stream.stdout (traceOf L argc argv) =
        "Couldn't bootstrap!\n" ++
          String.join
            (((invocations (traceOf L argc argv)).filter (fun rc => rc = L.LCB_SUCCESS)).map
              (fun _ => "Flush successful\n")) ∧
      textOn Stream.stderr (traceOf L argc argv) =
        String.join
          (((invocations (traceOf L argc argv)).filter (fun rc => rc ≠ L.LCB_SUCCESS)).map
            (fun rc => "Couldn't flush bucket: " ++ L.lcb_strerror rc ++ "\n")) ∧
      (invocations (traceOf L argc argv) ≠ [] →
        (∃ rest, printsOn Stream.stdout (traceOf L argc argv) =
            "Couldn't bootstrap!\n" :: "Flush successful\n" :: rest) ∨
          (∃ rc rest, printsOn Stream.stderr (traceOf L argc argv) =
            ("Couldn't flush bucket: " ++ L.lcb_strerror rc ++ "\n") :: rest)) := by
  rw [traceOf_eq] at hs ⊢
  rw [returned_status_mainTrace] at hs
  have hb : bootstrapStatus L ≠ L.LCB_SUCCESS := by
    have : bootstrapStatus L = s := by simpa using hs
    rw [this]; exact hne
  have hout : output (mainTrace L) =
      [(Stream.stdout, "Couldn't bootstrap!\n")] ++
        (invocations (mainTrace L)).map (outcomeLine L) := by
    rw [output_mainTrace]
    simp [bootOutput, hb]
  have h1 : printsOn Stream.stdout (mainTrace L) =
      "Couldn't bootstrap!\n" ::
        ((invocations (mainTrace L)).filter (fun rc => rc = L.LCB_SUCCESS)).map
          (fun _ => "Flush successful\n") := by
    unfold printsOn
    rw [hout, List.filter_append, List.map_append, printsOn_stdout_outcomes,
      printsOn_boot_stdout, List.singleton_append]
  have h2 : printsOn Stream.stderr (mainTrace L) =
      ((invocations (mainTrace L)).filter (fun rc => rc ≠ L.LCB_SUCCESS)).map
        (fun rc => "Couldn't flush bucket: " ++ L.lcb_strerror rc ++ "\n") := by
    unfold printsOn
    rw [hout, List.filter_append, List.map_append, printsOn_stderr_outcomes,
      printsOn_boot_stderr, List.nil_append]
  refine ⟨h1, h2, ?_, ?_, ?_⟩
  · rw [textOn_eq_join, h1, join_cons]
  · rw [textOn_eq_join, h2]
  · intro hinv
    rw [h1, h2]
    cases hi : invocations (mainTrace L) with
    | nil => exact absurd hi hinv
    | cons rc rest =>
      by_cases hrc : rc = L.LCB_SUCCESS
      · left
        rw [List.filter_cons_of_pos (by simpa using hrc), List.map_cons]
        exact ⟨_, rfl⟩
      · right
        rw [List.filter_cons_of_pos (by simpa using hrc), List.map_cons]
        exact ⟨rc, _, rfl⟩

/-- Witness for C8 (amended): the store is unreachable and the flush callback is
invoked once with status 24, so the bootstrap line is alone on standard output
and the error line is on standard error. -/
theorem C8_unreachable_store_amended_witness :
    returned LibFn.lcb_get_bootstrap_status (traceOf downFailLib 1 ["flush"]) = [24] ∧
      (24 : lcb_error_t) ≠ downFailLib.LCB_SUCCESS ∧
      invocations (traceOf downFailLib 1 ["flush"]) ≠ [] ∧
      printsOn Stream.stdout (traceOf downFailLib 1 ["flush"]) =
        "Couldn't bootstrap!\n" ::
          ((invocations (traceOf downFailLib 1 ["flush"])).filter
            (fun rc => rc = downFailLib.LCB_SUCCESS)).map (fun _ => "Flush successful\n") ∧
      printsOn Stream.stderr (traceOf downFailLib 1 ["flush"]) =
        ((invocations (traceOf downFailLib 1 ["flush"])).filter
          (fun rc => rc ≠ downFailLib.LCB_SUCCESS)).map
          (fun rc => "Couldn't flush bucket: " ++ downFailLib.lcb_strerror rc ++ "\n") ∧
      ((∃ rest, printsOn Stream.stdout (traceOf downFailLib 1 ["flush"]) =
          "Couldn't bootstrap!\n" :: "Flush successful\n" :: rest) ∨
        (∃ rc rest, printsOn Stream.stderr (traceOf downFailLib 1 ["flush"]) =
          ("Couldn't flush bucket: " ++ downFailLib.lcb_strerror rc ++ "\n") :: rest)) :=
  ⟨by rfl, by decide, by decide,
    (C8_unreachable_store_amended downFailLib 1 ["flush"] 24 (by rfl) (by decide)).1,
    (C8_unreachable_store_amended downFailLib 1 ["flush"] 24 (by rfl) (by decide)).2.1,
    (C8_unreachable_store_amended downFailLib 1 ["flush"] 24 (by rfl) (by decide)).2.2.2.2
      (by decide)⟩

/-- C10 (output streams, one line per response): an invocation of
`flush_callback` with any status makes exactly one print, a text ending in a
newline (and holding no other newline when the library's description has
none), and changes nothing else: with `LCB_SUCCESS` the line goes to standard
output and standard error is unchanged, otherwise the line goes to standard
error (after the nested `lcb_strerror` call) and standard output is unchanged.
In a run of `main` the bootstrap-failure line goes to standard output, standard
error carries only flush error lines, and when the bootstrap succeeds and every
flush response is a failure the standard output of the program is empty. -/
theorem C10_output_streams (L : Library) :
    (∀ (inst : lcb_t) (cbtype : Int) (resp : lcb_RESPCBFLUSH) (w : World),
        (flush_callback L inst cbtype resp w).2.callbacks = w.callbacks ∧
        output (flush_callback L inst cbtype resp w).2.trace =
          output w.trace ++ [outcomeLine L resp.rc] ∧
        (outcomeLine L resp.rc).2.toList.getLast? = some '\n' ∧
        ('\n' ∉ (L.lcb_strerror resp.rc).toList →
          (outcomeLine L resp.rc).2.toList.count '\n' = 1) ∧
        (resp.rc = L.LCB_SUCCESS →
          (flush_callback L inst cbtype resp w).2.trace =
            w.trace ++ [Event.write Stream.stdout "Flush successful\n"] ∧
          textOn Stream.stdout (flush_callback L inst cbtype resp w).2.trace =
            textOn Stream.stdout w.trace ++ "Flush successful\n" ∧
          textOn Stream.stderr (flush_callback L inst cbtype resp w).2.trace =
            textOn Stream.stderr w.trace) ∧
        (resp.rc ≠ L.LCB_SUCCESS →
          (flush_callback L inst cbtype resp w).2.trace =
            w.trace ++ [Event.nested Callback.flush_callback ⟨LibFn.lcb_strerror resp.rc, none⟩,
              Event.write Stream.stderr
                ("Couldn't flush bucket: " ++ L.lcb_strerror resp.rc ++ "\n")] ∧
          textOn Stream.stderr (flush_callback L inst cbtype resp w).2.trace =
            textOn Stream.stderr w.trace ++
              ("Couldn't flush bucket: " ++ L.lcb_strerror resp.rc ++ "\n") ∧
          textOn Stream.stdout (flush_callback L inst cbtype resp w).2.trace =
            textOn Stream.stdout w.trace)) ∧
      (∀ (argc : Int) (argv : List String),
        (returned LibFn.lcb_get_bootstrap_status (traceOf L argc argv) ≠ [L.LCB_SUCCESS] →
          (output (traceOf L argc argv)).head? = some (Stream.stdout, "Couldn't bootstrap!\n")) ∧
        (∀ text, (Stream.stderr, text) ∈ output (traceOf L argc argv) →
          ∃ rc ∈ invocations (traceOf L argc argv), rc ≠ L.LCB_SUCCESS ∧
            text = "Couldn't flush bucket: " ++ L.lcb_strerror rc ++ "\n") ∧
        (returned LibFn.lcb_get_bootstrap_status (traceOf L argc argv) = [L.LCB_SUCCESS] →
          (∀ rc ∈ invocations (traceOf L argc argv), rc ≠ L.LCB_SUCCESS) →
          textOn Stream.stdout (traceOf L argc argv) = "")) := by
  constructor
  · intro inst cbtype resp w
    rw [flush_callback_eq]
    refine ⟨rfl, ?_, outcomeLine_terminated L resp.rc, outcomeLine_newlines L resp.rc, ?_, ?_⟩
    · by_cases h : resp.rc = L.LCB_SUCCESS <;>
        simp [callbackEvents, outcomeLine, h, output]
    · intro h
      have ht : (callbackEvents L inst cbtype resp.rc).tail =
          [Event.write Stream.stdout "Flush successful\n"] := by
        simp [callbackEvents, h]
      simp only [ht, textOn_append]
      refine ⟨trivial, ?_, ?_⟩
      · simp [textOn, output, String.join]
      · simp [textOn, output, String.join]
    · intro h
      have ht : (callbackEvents L inst cbtype resp.rc).tail =
          [Event.nested Callback.flush_callback ⟨LibFn.lcb_strerror resp.rc, none⟩,
            Event.write Stream.stderr
              ("Couldn't flush bucket: " ++ L.lcb_strerror resp.rc ++ "\n")] := by
        simp [callbackEvents, h]
      simp only [ht, textOn_append]
      refine ⟨trivial, ?_, ?_⟩
      · simp [textOn, output, String.join]
      · simp [textOn, output, String.join]
  · intro argc argv
    rw [traceOf_eq, returned_status_mainTrace, output_mainTrace]
    refine ⟨?_, ?_, ?_⟩
    · intro hb
      have hb2 : bootstrapStatus L ≠ L.LCB_SUCCESS := by simpa using hb
      simp [bootOutput, hb2]
    · intro text hmem
      rw [List.mem_append] at hmem
      rcases hmem with hmem | hmem
      · unfold bootOutput at hmem
        split at hmem <;> simp at hmem
      · obtain ⟨rc, hrc, hline⟩ := List.mem_map.mp hmem
        by_cases hs : rc = L.LCB_SUCCESS
        · rw [hs, outcomeLine_of_success] at hline
          simp at hline
        · rw [outcomeLine_of_failure L rc hs] at hline
          exact ⟨rc, hrc, hs, (congrArg Prod.snd hline).symm⟩
    · intro hb hall
      have hb2 : bootstrapStatus L = L.LCB_SUCCESS := by simpa using hb
      have hnil : ((invocations (mainTrace L)).map (outcomeLine L)).filter
          (fun p => p.1 = Stream.stdout) = [] := by
        rw [List.filter_eq_nil_iff]
        intro p hp
        obtain ⟨rc, hrc, hline⟩ := List.mem_map.mp hp
        rw [outcomeLine_of_failure L rc (hall rc hrc)] at hline
        simp [← hline]
      unfold textOn
      rw [output_mainTrace]
      simp only [bootOutput, hb2, ne_eq, not_true_eq_false, if_false, List.nil_append, hnil]
      rfl

/-- Witness for C10: the bootstrap succeeds, the flush is refused, and the
standard output of the run is empty. -/
theorem C10_output_streams_witness :
    returned LibFn.lcb_get_bootstrap_status (traceOf failLib 1 ["flush"]) =
        [failLib.LCB_SUCCESS] ∧
      (∀ rc ∈ invocations (traceOf failLib 1 ["flush"]), rc ≠ failLib.LCB_SUCCESS) ∧
      textOn Stream.stdout (traceOf failLib 1 ["flush"]) = "" ∧
      (outcomeLine failLib 22).2.toList.count '\n' = 1 :=
  ⟨by rfl, by decide,
    ((C10_output_streams failLib).2 1 ["flush"]).2.2 (by rfl) (by decide),
    ((C10_output_streams failLib).1 0 0 ⟨22⟩ World.init).2.2.2.1 (by decide)⟩

end Flush
